import Mathlib

/-
Verification of the timeweb-ai-obsidian plugin (src/main.ts).

The plugin has a single command whose `editorCallback` orchestrates:
precondition checks on the settings, capture of the current selection,
an instruction modal, composition of an outgoing message, one HTTP POST
with a 30-second abort timer, and insertion of the response back into
the document.  We embed the callback as a pure function from an
environment (settings, active view, captured selection, modal result,
fetch outcome) to the list of effects it performs, in program order.
-/

namespace Timeweb

/-- Persisted plugin settings: credential token and agent identifier
(interface `TimewebPluginSettings` in src/main.ts). -/
structure TimewebPluginSettings where
  token : String
  agentId : String
deriving DecidableEq

/-- `DEFAULT_SETTINGS` from src/main.ts: both fields default to the empty string. -/
def DEFAULT_SETTINGS : TimewebPluginSettings :=
  { token := "", agentId := "" }

/-- Result of the JavaScript expression `data?.message` on the parsed JSON
response body: the field can be absent (or the body itself nullish, giving
`undefined`), present with a JSON `null` value, or present with a string value. -/
inductive MsgField where
  | absent
  | null
  | str (s : String)
deriving DecidableEq

/-- An HTTP response as consumed by the callback: the `ok` flag, the numeric
status code, and the `message` field of the parsed JSON body. -/
structure HttpResponse where
  ok : Bool
  status : Nat
  msgField : MsgField
deriving DecidableEq

/-- Outcome of the `fetch` call inside the `try` block: either a response was
delivered, or an error was thrown (network failure, JSON parse failure, or the
abort fired from the 30-second timer; `timedOut` records which, though the
`catch` clause never inspects it). -/
inductive FetchOutcome where
  | response (resp : HttpResponse)
  | thrown (timedOut : Bool)
deriving DecidableEq

/-- An editor position (CodeMirror line/ch pair), used for the captured
selection range `cursorStart`/`cursorEnd`. -/
structure EditorPos where
  line : Nat
  ch : Nat
deriving DecidableEq

/-- The outgoing HTTP request built by the callback: method, URL, the two
headers, the `message` field of the JSON body, and the abort deadline
attached via `AbortController` + `setTimeout`. -/
structure AgentRequest where
  method : String
  url : String
  authHeader : String
  contentType : String
  bodyMessage : String
  timeoutMs : Nat
deriving DecidableEq

/-- Observable effects of one callback invocation, in program order.
`notice text durationMs` is `new Notice(text, durationMs)` (`none` when the
duration argument is omitted, `some 0` for a persistent notice);
`hideNotice` is `notice.hide()`; `setSelection` and `replaceSelection` are
the editor mutations; `fetchCall` is the network dispatch; `clearTimeoutEff`
is the `finally { clearTimeout(timeout) }`. -/
inductive Effect where
  | notice (text : String) (durationMs : Option Nat)
  | hideNotice (text : String)
  | setSelection (anchor head : EditorPos)
  | replaceSelection (text : String)
  | fetchCall (req : AgentRequest)
  | clearTimeoutEff
deriving DecidableEq

/-- The environment one invocation of the command runs in: current settings,
whether an active markdown view exists, the captured selection range and
selected text, the modal's result (`null` encoded as `none`), and how the
fetch turns out. -/
structure Env where
  settings : TimewebPluginSettings
  hasActiveView : Bool
  cursorStart : EditorPos
  cursorEnd : EditorPos
  selectedText : String
  modalResult : Option String
  fetchOutcome : FetchOutcome
deriving DecidableEq

/-- The template literal of src/main.ts line 117:
Инструкция: instruction, blank line, Текст: header, then the text. -/
def buildMessage (instruction textToSend : String) : String :=
  "Инструкция: " ++ instruction ++ "\n\nТекст:\n" ++ textToSend

/-- The endpoint URL template of src/main.ts line 127. -/
def agentUrl (agentId : String) : String :=
  "https://api.timeweb.cloud/api/v1/cloud-ai/agents/" ++ agentId ++ "/call"

/-- The request object passed to `fetch` (src/main.ts lines 126-137). -/
def mkRequest (settings : TimewebPluginSettings) (message : String) : AgentRequest :=
  { method := "POST"
    url := agentUrl settings.agentId
    authHeader := "Bearer " ++ settings.token
    contentType := "application/json"
    bodyMessage := message
    timeoutMs := 30000 }

/-- `data?.message ?? "❌ Нет ответа"` (src/main.ts line 146): the nullish
coalescing operator substitutes the fallback for `undefined` and `null`
only; any string value, including the empty string, passes through. -/
def replyOf : MsgField → String
  | .str s => s
  | .null => "❌ Нет ответа"
  | .absent => "❌ Нет ответа"

/-- Effects of the `try` block after the fetch resolves or throws
(src/main.ts lines 139-157). -/
def outcomeEffects (outcome : FetchOutcome) : List Effect :=
  match outcome with
  | .response resp =>
    if resp.ok = false then
      [Effect.hideNotice "⏳ Генерация...",
       Effect.notice ("❌ Ошибка API: " ++ toString resp.status) none]
    else
      [Effect.replaceSelection (replyOf resp.msgField),
       Effect.hideNotice "⏳ Генерация...",
       Effect.notice "✅ Ответ вставлен в заметку" (some 3000)]
  | .thrown _ =>
    [Effect.hideNotice "⏳ Генерация...",
     Effect.notice "❌ Ошибка запроса или таймаут (30 секунд)" none]

/-- The command's `editorCallback` (src/main.ts lines 78-161) as the list of
effects it performs.  JavaScript string truthiness (`!s`, the ternaries on
`selectedText`, `if (!instructionOrText)`) is `= ""` on strings and
`none`-or-empty on the nullable modal result. -/
def editorCallback (env : Env) : List Effect :=
  if env.settings.token = "" ∨ env.settings.agentId = "" then
    [Effect.notice "⚠ Укажи токен и Agent ID в настройках" none]
  else if env.hasActiveView = false then
    [Effect.notice "⚠ Нет активного редактора" none]
  else
    match env.modalResult with
    | none => []
    | some instructionOrText =>
      if instructionOrText = "" then []
      else
        let textToSend :=
          if env.selectedText = "" then instructionOrText else env.selectedText
        let instruction :=
          if env.selectedText = "" then "Обработай текст" else instructionOrText
        [Effect.setSelection env.cursorStart env.cursorEnd,
         Effect.notice "⏳ Генерация..." (some 0),
         Effect.fetchCall (mkRequest env.settings (buildMessage instruction textToSend))]
        ++ outcomeEffects env.fetchOutcome
        ++ [Effect.clearTimeoutEff]

/-- The requests dispatched in a trace. -/
def networkCalls (t : List Effect) : List AgentRequest :=
  t.filterMap fun e =>
    match e with
    | .fetchCall req => some req
    | _ => none

/-- The message bodies of the requests dispatched in a trace. -/
def sentMessages (t : List Effect) : List String :=
  (networkCalls t).map (fun req => req.bodyMessage)

/-- The notifications shown in a trace, with their duration arguments. -/
def noticesShown (t : List Effect) : List (String × Option Nat) :=
  t.filterMap fun e =>
    match e with
    | .notice s d => some (s, d)
    | _ => none

/-- The notifications explicitly dismissed in a trace. -/
def noticesHidden (t : List Effect) : List String :=
  t.filterMap fun e =>
    match e with
    | .hideNotice s => some s
    | _ => none

/-- The document text replacements performed in a trace. -/
def textReplacements (t : List Effect) : List String :=
  t.filterMap fun e =>
    match e with
    | .replaceSelection s => some s
    | _ => none

/-- The selection restorations performed in a trace. -/
def selectionRestores (t : List Effect) : List (EditorPos × EditorPos) :=
  t.filterMap fun e =>
    match e with
    | .setSelection a b => some (a, b)
    | _ => none

/-- The modal key handler (src/main.ts lines 53-59): modal state it mutates. -/
structure ModalState where
  result : Option String
  closed : Bool
deriving DecidableEq

/-- A DOM keyboard event as consumed by the handler. -/
structure KeyEvent where
  key : String
  shiftKey : Bool
deriving DecidableEq

/-- The `keypress` listener on the modal textarea (src/main.ts lines 53-59):
early return on Shift+Enter, otherwise on Enter set the result to the
textarea's current value and close the modal. -/
def keypressHandler (e : KeyEvent) (textareaValue : String) (st : ModalState) : ModalState :=
  if e.key = "Enter" ∧ e.shiftKey = true then st
  else if e.key = "Enter" then { result := some textareaValue, closed := true }
  else st

/-- Environment with a non-empty selection and a successful response carrying
a string `message` field. -/
def envSelOk : Env :=
  { settings := { token := "tok", agentId := "agent1" }
    hasActiveView := true
    cursorStart := { line := 0, ch := 0 }
    cursorEnd := { line := 0, ch := 5 }
    selectedText := "Hello"
    modalResult := some "Translate"
    fetchOutcome := .response { ok := true, status := 200, msgField := .str "Hola" } }

/-- Environment with a successful response whose `message` field is the empty
string. -/
def envEmptyMsg : Env :=
  { envSelOk with
    fetchOutcome := .response { ok := true, status := 200, msgField := .str "" } }

/-- Environment with an HTTP 500 response. -/
def envErr500 : Env :=
  { envSelOk with
    fetchOutcome := .response { ok := false, status := 500, msgField := .absent } }

/-- Environment in which the fetch throws because the 30-second abort fired. -/
def envThrown : Env :=
  { envSelOk with fetchOutcome := .thrown true }

/-- Environment with an empty token field. -/
def envEmptyToken : Env :=
  { envSelOk with settings := { token := "", agentId := "agent1" } }

/-- Environment in which the modal was cancelled (result `null`). -/
def envCancelled : Env :=
  { envSelOk with modalResult := none }

/-- With both preconditions satisfied and a truthy modal result, the callback
performs exactly: restore selection, show the persistent progress notice,
dispatch the request, the outcome-dependent effects, and clear the timer. -/
theorem editorCallback_dispatch (env : Env) (r : String)
    (h1 : env.settings.token ≠ "") (h2 : env.settings.agentId ≠ "")
    (h3 : env.hasActiveView = true) (h4 : env.modalResult = some r) (h5 : r ≠ "") :
    editorCallback env =
      [Effect.setSelection env.cursorStart env.cursorEnd,
       Effect.notice "⏳ Генерация..." (some 0),
       Effect.fetchCall (mkRequest env.settings (buildMessage
         (if env.selectedText = "" then "Обработай текст" else r)
         (if env.selectedText = "" then r else env.selectedText)))]
      ++ outcomeEffects env.fetchOutcome
      ++ [Effect.clearTimeoutEff] := by
  simp [editorCallback, h1, h2, h3, h4, h5]

theorem networkCalls_append (s t : List Effect) :
    networkCalls (s ++ t) = networkCalls s ++ networkCalls t := by
  simp [networkCalls]

theorem noticesShown_append (s t : List Effect) :
    noticesShown (s ++ t) = noticesShown s ++ noticesShown t := by
  simp [noticesShown]

theorem noticesHidden_append (s t : List Effect) :
    noticesHidden (s ++ t) = noticesHidden s ++ noticesHidden t := by
  simp [noticesHidden]

theorem textReplacements_append (s t : List Effect) :
    textReplacements (s ++ t) = textReplacements s ++ textReplacements t := by
  simp [textReplacements]

theorem networkCalls_outcomeEffects (o : FetchOutcome) :
    networkCalls (outcomeEffects o) = [] := by
  cases o with
  | response resp => cases hok : resp.ok <;> simp [outcomeEffects, networkCalls, hok]
  | thrown b => simp [outcomeEffects, networkCalls]

/-- C1: when the invocation passes the preconditions and reaches dispatch,
a non-empty captured selection makes the outgoing message's text section the
selection verbatim and its instruction section the modal's result, while an
empty captured selection makes the instruction section the fixed default
string and the text section the modal's result. -/
theorem c1_message_sections (env : Env) (r : String)
    (h1 : env.settings.token ≠ "") (h2 : env.settings.agentId ≠ "")
    (h3 : env.hasActiveView = true) (h4 : env.modalResult = some r) (h5 : r ≠ "") :
    (env.selectedText ≠ "" →
      sentMessages (editorCallback env) =
        ["Инструкция: " ++ r ++ "\n\nТекст:\n" ++ env.selectedText]) ∧
    (env.selectedText = "" →
      sentMessages (editorCallback env) =
        ["Инструкция: " ++ "Обработай текст" ++ "\n\nТекст:\n" ++ r]) := by
  have hd := editorCallback_dispatch env r h1 h2 h3 h4 h5
  constructor
  · intro hsel
    rw [hd]
    simp only [sentMessages, networkCalls_append, networkCalls_outcomeEffects]
    simp [networkCalls, mkRequest, buildMessage, hsel]
  · intro hsel
    rw [hd]
    simp only [sentMessages, networkCalls_append, networkCalls_outcomeEffects]
    simp [networkCalls, mkRequest, buildMessage, hsel]

/-- Closed instance of C1 at a concrete environment with selection "Hello"
and modal result "Translate". -/
theorem c1_message_sections_witness :
    envSelOk.settings.token ≠ "" ∧ envSelOk.settings.agentId ≠ "" ∧
    envSelOk.hasActiveView = true ∧ envSelOk.modalResult = some "Translate" ∧
    ("Translate" : String) ≠ "" ∧
    ((envSelOk.selectedText ≠ "" →
      sentMessages (editorCallback envSelOk) =
        ["Инструкция: " ++ "Translate" ++ "\n\nТекст:\n" ++ envSelOk.selectedText]) ∧
     (envSelOk.selectedText = "" →
      sentMessages (editorCallback envSelOk) =
        ["Инструкция: " ++ "Обработай текст" ++ "\n\nТекст:\n" ++ "Translate"])) :=
  ⟨by decide, by decide, by decide, by decide, by decide,
   c1_message_sections envSelOk "Translate" (by decide) (by decide) (by decide)
     (by decide) (by decide)⟩

/-- C2: on an ok response, a string-valued message field replaces the restored
selection with exactly that value, an absent field replaces it with the fixed
fallback string, the in-progress notice is dismissed, and a success notice
with a 3000 ms auto-dismiss is shown. -/
theorem c2_success_response (env : Env) (r : String) (resp : HttpResponse)
    (h1 : env.settings.token ≠ "") (h2 : env.settings.agentId ≠ "")
    (h3 : env.hasActiveView = true) (h4 : env.modalResult = some r) (h5 : r ≠ "")
    (h6 : env.fetchOutcome = .response resp) (h7 : resp.ok = true) :
    (∀ s, resp.msgField = .str s → textReplacements (editorCallback env) = [s]) ∧
    (resp.msgField = .absent →
      textReplacements (editorCallback env) = ["❌ Нет ответа"]) ∧
    noticesHidden (editorCallback env) = ["⏳ Генерация..."] ∧
    ("✅ Ответ вставлен в заметку", some 3000) ∈ noticesShown (editorCallback env) := by
  have hd := editorCallback_dispatch env r h1 h2 h3 h4 h5
  rw [h6] at hd
  refine ⟨?_, ?_, ?_, ?_⟩
  · intro s hs
    rw [hd]
    simp [textReplacements_append, textReplacements, outcomeEffects, h7, replyOf, hs]
  · intro hs
    rw [hd]
    simp [textReplacements_append, textReplacements, outcomeEffects, h7, replyOf, hs]
  · rw [hd]
    simp [noticesHidden_append, noticesHidden, outcomeEffects, h7]
  · rw [hd]
    simp [noticesShown_append, noticesShown, outcomeEffects, h7]

/-- Closed instance of C2 at a concrete environment whose response carries
the message "Hola". -/
theorem c2_success_response_witness :
    envSelOk.settings.token ≠ "" ∧ envSelOk.settings.agentId ≠ "" ∧
    envSelOk.hasActiveView = true ∧ envSelOk.modalResult = some "Translate" ∧
    ("Translate" : String) ≠ "" ∧
    envSelOk.fetchOutcome =
      .response { ok := true, status := 200, msgField := .str "Hola" } ∧
    (({ ok := true, status := 200, msgField := .str "Hola" } : HttpResponse).ok = true) ∧
    ((∀ s, ({ ok := true, status := 200, msgField := .str "Hola" } : HttpResponse).msgField
        = .str s → textReplacements (editorCallback envSelOk) = [s]) ∧
     (({ ok := true, status := 200, msgField := .str "Hola" } : HttpResponse).msgField
        = .absent → textReplacements (editorCallback envSelOk) = ["❌ Нет ответа"]) ∧
     noticesHidden (editorCallback envSelOk) = ["⏳ Генерация..."] ∧
     ("✅ Ответ вставлен в заметку", some 3000) ∈ noticesShown (editorCallback envSelOk)) :=
  ⟨by decide, by decide, by decide, by decide, by decide, by decide, by decide,
   c2_success_response envSelOk "Translate"
     { ok := true, status := 200, msgField := .str "Hola" }
     (by decide) (by decide) (by decide) (by decide) (by decide) (by decide) (by decide)⟩

/-- C3: when the preconditions pass but the modal closes with a `null` or
empty result, the callback performs no effect at all: no selection
restoration, no document mutation, no network call, no notice. -/
theorem c3_cancel_silent_abort (env : Env)
    (h1 : env.settings.token ≠ "") (h2 : env.settings.agentId ≠ "")
    (h3 : env.hasActiveView = true)
    (h4 : env.modalResult = none ∨ env.modalResult = some "") :
    editorCallback env = [] := by
  rcases h4 with h4 | h4 <;> simp [editorCallback, h1, h2, h3, h4]

/-- Closed instance of C3 at a concrete environment where the modal was
cancelled. -/
theorem c3_cancel_silent_abort_witness :
    envCancelled.settings.token ≠ "" ∧ envCancelled.settings.agentId ≠ "" ∧
    envCancelled.hasActiveView = true ∧
    (envCancelled.modalResult = none ∨ envCancelled.modalResult = some "") ∧
    editorCallback envCancelled = [] :=
  ⟨by decide, by decide, by decide, by decide,
   c3_cancel_silent_abort envCancelled (by decide) (by decide) (by decide) (by decide)⟩

/-- C4: with an empty token or agent identifier the callback performs exactly
one warning notice and nothing else: no network call, no text replacement,
no selection change. -/
theorem c4_missing_settings_warning (env : Env)
    (h : env.settings.token = "" ∨ env.settings.agentId = "") :
    editorCallback env = [Effect.notice "⚠ Укажи токен и Agent ID в настройках" none] ∧
    networkCalls (editorCallback env) = [] ∧
    textReplacements (editorCallback env) = [] ∧
    selectionRestores (editorCallback env) = [] ∧
    (noticesShown (editorCallback env)).length = 1 := by
  have ht : editorCallback env =
      [Effect.notice "⚠ Укажи токен и Agent ID в настройках" none] := by
    unfold editorCallback
    rw [if_pos h]
  refine ⟨ht, ?_, ?_, ?_, ?_⟩ <;> rw [ht] <;>
    simp [networkCalls, textReplacements, selectionRestores, noticesShown]

/-- Closed instance of C4 at a concrete environment with an empty token. -/
theorem c4_missing_settings_warning_witness :
    (envEmptyToken.settings.token = "" ∨ envEmptyToken.settings.agentId = "") ∧
    (editorCallback envEmptyToken =
      [Effect.notice "⚠ Укажи токен и Agent ID в настройках" none] ∧
     networkCalls (editorCallback envEmptyToken) = [] ∧
     textReplacements (editorCallback envEmptyToken) = [] ∧
     selectionRestores (editorCallback envEmptyToken) = [] ∧
     (noticesShown (editorCallback envEmptyToken)).length = 1) :=
  ⟨by decide, c4_missing_settings_warning envEmptyToken (by decide)⟩

/-- C5: on a non-ok response the callback replaces no text, dismisses the
in-progress notice, shows one error notice whose text contains the numeric
status code, and dispatches exactly one request (no retry). -/
theorem c5_http_error (env : Env) (r : String) (resp : HttpResponse)
    (h1 : env.settings.token ≠ "") (h2 : env.settings.agentId ≠ "")
    (h3 : env.hasActiveView = true) (h4 : env.modalResult = some r) (h5 : r ≠ "")
    (h6 : env.fetchOutcome = .response resp) (h7 : resp.ok = false) :
    textReplacements (editorCallback env) = [] ∧
    noticesHidden (editorCallback env) = ["⏳ Генерация..."] ∧
    noticesShown (editorCallback env) =
      [("⏳ Генерация...", some 0), ("❌ Ошибка API: " ++ toString resp.status, none)] ∧
    (∃ pre, (pre ++ toString resp.status, (none : Option Nat)) ∈
      noticesShown (editorCallback env)) ∧
    (networkCalls (editorCallback env)).length = 1 := by
  have hd := editorCallback_dispatch env r h1 h2 h3 h4 h5
  rw [h6] at hd
  refine ⟨?_, ?_, ?_, ?_, ?_⟩
  · rw [hd]
    simp [textReplacements_append, textReplacements, outcomeEffects, h7]
  · rw [hd]
    simp [noticesHidden_append, noticesHidden, outcomeEffects, h7]
  · rw [hd]
    simp [noticesShown_append, noticesShown, outcomeEffects, h7]
  · refine ⟨"❌ Ошибка API: ", ?_⟩
    rw [hd]
    simp [noticesShown_append, noticesShown, outcomeEffects, h7]
  · rw [hd]
    simp only [networkCalls_append, networkCalls_outcomeEffects]
    simp [networkCalls]

/-- Closed instance of C5 at a concrete environment with an HTTP 500
response. -/
theorem c5_http_error_witness :
    envErr500.settings.token ≠ "" ∧ envErr500.settings.agentId ≠ "" ∧
    envErr500.hasActiveView = true ∧ envErr500.modalResult = some "Translate" ∧
    ("Translate" : String) ≠ "" ∧
    envErr500.fetchOutcome =
      .response { ok := false, status := 500, msgField := .absent } ∧
    (({ ok := false, status := 500, msgField := .absent } : HttpResponse).ok = false) ∧
    (textReplacements (editorCallback envErr500) = [] ∧
     noticesHidden (editorCallback envErr500) = ["⏳ Генерация..."] ∧
     noticesShown (editorCallback envErr500) =
       [("⏳ Генерация...", some 0),
        ("❌ Ошибка API: " ++
          toString ({ ok := false, status := 500, msgField := .absent } : HttpResponse).status,
         none)] ∧
     (∃ pre,
       (pre ++ toString ({ ok := false, status := 500, msgField := .absent } : HttpResponse).status,
        (none : Option Nat)) ∈ noticesShown (editorCallback envErr500)) ∧
     (networkCalls (editorCallback envErr500)).length = 1) :=
  ⟨by decide, by decide, by decide, by decide, by decide, by decide, by decide,
   c5_http_error envErr500 "Translate" { ok := false, status := 500, msgField := .absent }
     (by decide) (by decide) (by decide) (by decide) (by decide) (by decide) (by decide)⟩

/-- C6: when the fetch throws (network failure, parse failure, or the
30-second abort), no text is replaced, the in-progress notice is dismissed,
a single generic error notice mentioning the 30-second window is shown, and
the trace is identical whether or not the failure was the timeout. -/
theorem c6_thrown_or_timeout (env : Env) (r : String) (b : Bool)
    (h1 : env.settings.token ≠ "") (h2 : env.settings.agentId ≠ "")
    (h3 : env.hasActiveView = true) (h4 : env.modalResult = some r) (h5 : r ≠ "")
    (h6 : env.fetchOutcome = .thrown b) :
    textReplacements (editorCallback env) = [] ∧
    noticesHidden (editorCallback env) = ["⏳ Генерация..."] ∧
    noticesShown (editorCallback env) =
      [("⏳ Генерация...", some 0), ("❌ Ошибка запроса или таймаут (30 секунд)", none)] ∧
    ("❌ Ошибка запроса или таймаут (" ++ "30 секунд" ++ ")", (none : Option Nat)) ∈
      noticesShown (editorCallback env) ∧
    (∀ b' : Bool,
      editorCallback { env with fetchOutcome := .thrown b' } = editorCallback env) := by
  have hd := editorCallback_dispatch env r h1 h2 h3 h4 h5
  rw [h6] at hd
  have hshown : noticesShown (editorCallback env) =
      [("⏳ Генерация...", some 0),
       ("❌ Ошибка запроса или таймаут (30 секунд)", none)] := by
    rw [hd]
    simp [noticesShown_append, noticesShown, outcomeEffects]
  refine ⟨?_, ?_, hshown, ?_, ?_⟩
  · rw [hd]
    simp [textReplacements_append, textReplacements, outcomeEffects]
  · rw [hd]
    simp [noticesHidden_append, noticesHidden, outcomeEffects]
  · rw [hshown]
    decide
  · intro b'
    have hd' := editorCallback_dispatch { env with fetchOutcome := FetchOutcome.thrown b' }
      r h1 h2 h3 h4 h5
    rw [hd, hd']
    simp [outcomeEffects]

/-- Closed instance of C6 at a concrete environment whose request is aborted
by the timeout. -/
theorem c6_thrown_or_timeout_witness :
    envThrown.settings.token ≠ "" ∧ envThrown.settings.agentId ≠ "" ∧
    envThrown.hasActiveView = true ∧ envThrown.modalResult = some "Translate" ∧
    ("Translate" : String) ≠ "" ∧ envThrown.fetchOutcome = .thrown true ∧
    (textReplacements (editorCallback envThrown) = [] ∧
     noticesHidden (editorCallback envThrown) = ["⏳ Генерация..."] ∧
     noticesShown (editorCallback envThrown) =
       [("⏳ Генерация...", some 0), ("❌ Ошибка запроса или таймаут (30 секунд)", none)] ∧
     ("❌ Ошибка запроса или таймаут (" ++ "30 секунд" ++ ")", (none : Option Nat)) ∈
       noticesShown (editorCallback envThrown) ∧
     (∀ b' : Bool,
       editorCallback { envThrown with fetchOutcome := .thrown b' } =
         editorCallback envThrown)) :=
  ⟨by decide, by decide, by decide, by decide, by decide, by decide,
   c6_thrown_or_timeout envThrown "Translate" true
     (by decide) (by decide) (by decide) (by decide) (by decide) (by decide)⟩

/-- C7: every dispatched request is a POST to the agent-call endpoint URL
containing the configured agent identifier, carries a Bearer authorization
header built from the token, a JSON content type, a body whose message field
is the composed message, and a 30000 ms abort deadline. -/
theorem c7_request_shape (env : Env) (r : String)
    (h1 : env.settings.token ≠ "") (h2 : env.settings.agentId ≠ "")
    (h3 : env.hasActiveView = true) (h4 : env.modalResult = some r) (h5 : r ≠ "") :
    networkCalls (editorCallback env) =
      [{ method := "POST"
         url := "https://api.timeweb.cloud/api/v1/cloud-ai/agents/" ++
           env.settings.agentId ++ "/call"
         authHeader := "Bearer " ++ env.settings.token
         contentType := "application/json"
         bodyMessage := buildMessage
           (if env.selectedText = "" then "Обработай текст" else r)
           (if env.selectedText = "" then r else env.selectedText)
         timeoutMs := 30000 }] := by
  rw [editorCallback_dispatch env r h1 h2 h3 h4 h5]
  simp only [networkCalls_append, networkCalls_outcomeEffects]
  simp [networkCalls, mkRequest, agentUrl]

/-- Closed instance of C7 at a concrete environment. -/
theorem c7_request_shape_witness :
    envSelOk.settings.token ≠ "" ∧ envSelOk.settings.agentId ≠ "" ∧
    envSelOk.hasActiveView = true ∧ envSelOk.modalResult = some "Translate" ∧
    ("Translate" : String) ≠ "" ∧
    networkCalls (editorCallback envSelOk) =
      [{ method := "POST"
         url := "https://api.timeweb.cloud/api/v1/cloud-ai/agents/" ++
           envSelOk.settings.agentId ++ "/call"
         authHeader := "Bearer " ++ envSelOk.settings.token
         contentType := "application/json"
         bodyMessage := buildMessage
           (if envSelOk.selectedText = "" then "Обработай текст" else "Translate")
           (if envSelOk.selectedText = "" then "Translate" else envSelOk.selectedText)
         timeoutMs := 30000 }] :=
  ⟨by decide, by decide, by decide, by decide, by decide,
   c7_request_shape envSelOk "Translate"
     (by decide) (by decide) (by decide) (by decide) (by decide)⟩

/-- C8: the composed outgoing message is the labeled instruction block,
then a blank line, then the labeled text block. -/
theorem c8_message_blocks (instruction textToSend : String) :
    buildMessage instruction textToSend =
      ("Инструкция: " ++ instruction) ++ "\n\n" ++ ("Текст:\n" ++ textToSend) := by
  have h : ("\n\n" : String) ++ "Текст:\n" = "\n\nТекст:\n" := rfl
  unfold buildMessage
  simp only [String.append_assoc]
  conv_rhs => rw [← String.append_assoc ("\n\n" : String) "Текст:\n" textToSend]
  rw [h]

/-- C9: in the modal textarea key handler, Enter with shift held leaves the
modal state untouched (no result set, not closed), while Enter without shift
sets the result to the textarea's current value and closes the modal. -/
theorem c9_enter_key (v : String) (st : ModalState) :
    keypressHandler { key := "Enter", shiftKey := true } v st = st ∧
    keypressHandler { key := "Enter", shiftKey := false } v st =
      { result := some v, closed := true } := by
  constructor <;> simp [keypressHandler]

/-- C10: on an ok response, an empty-string message field replaces the
selection with the empty string; any string value passes through unchanged;
the fallback placeholder is used exactly when the field is null or absent. -/
theorem c10_empty_message_kept (env : Env) (r : String) (resp : HttpResponse)
    (h1 : env.settings.token ≠ "") (h2 : env.settings.agentId ≠ "")
    (h3 : env.hasActiveView = true) (h4 : env.modalResult = some r) (h5 : r ≠ "")
    (h6 : env.fetchOutcome = .response resp) (h7 : resp.ok = true) :
    (resp.msgField = .str "" → textReplacements (editorCallback env) = [""]) ∧
    (∀ s, resp.msgField = .str s → textReplacements (editorCallback env) = [s]) ∧
    (resp.msgField = .null →
      textReplacements (editorCallback env) = ["❌ Нет ответа"]) ∧
    (resp.msgField = .absent →
      textReplacements (editorCallback env) = ["❌ Нет ответа"]) := by
  have hd := editorCallback_dispatch env r h1 h2 h3 h4 h5
  rw [h6] at hd
  refine ⟨?_, ?_, ?_, ?_⟩ <;> intro hs <;> try intro hs2
  case _ =>
    rw [hd]
    simp [textReplacements_append, textReplacements, outcomeEffects, h7, replyOf, hs]
  case _ =>
    rw [hd]
    simp [textReplacements_append, textReplacements, outcomeEffects, h7, replyOf, hs2]
  case _ =>
    rw [hd]
    simp [textReplacements_append, textReplacements, outcomeEffects, h7, replyOf, hs]
  case _ =>
    rw [hd]
    simp [textReplacements_append, textReplacements, outcomeEffects, h7, replyOf, hs]

/-- Closed instance of C10 at a concrete environment whose response message
field is the empty string. -/
theorem c10_empty_message_kept_witness :
    envEmptyMsg.settings.token ≠ "" ∧ envEmptyMsg.settings.agentId ≠ "" ∧
    envEmptyMsg.hasActiveView = true ∧ envEmptyMsg.modalResult = some "Translate" ∧
    ("Translate" : String) ≠ "" ∧
    envEmptyMsg.fetchOutcome =
      .response { ok := true, status := 200, msgField := .str "" } ∧
    (({ ok := true, status := 200, msgField := .str "" } : HttpResponse).ok = true) ∧
    ((({ ok := true, status := 200, msgField := .str "" } : HttpResponse).msgField = .str "" →
       textReplacements (editorCallback envEmptyMsg) = [""]) ∧
     (∀ s, ({ ok := true, status := 200, msgField := .str "" } : HttpResponse).msgField = .str s →
       textReplacements (editorCallback envEmptyMsg) = [s]) ∧
     (({ ok := true, status := 200, msgField := .str "" } : HttpResponse).msgField = .null →
       textReplacements (editorCallback envEmptyMsg) = ["❌ Нет ответа"]) ∧
     (({ ok := true, status := 200, msgField := .str "" } : HttpResponse).msgField = .absent →
       textReplacements (editorCallback envEmptyMsg) = ["❌ Нет ответа"])) :=
  ⟨by decide, by decide, by decide, by decide, by decide, by decide, by decide,
   c10_empty_message_kept envEmptyMsg "Translate"
     { ok := true, status := 200, msgField := .str "" }
     (by decide) (by decide) (by decide) (by decide) (by decide) (by decide) (by decide)⟩

end Timeweb
